import Mathlib

/-!
Verification of the granite-math-sdk arithmetic against its specification.

All JavaScript numbers are modelled as exact rationals, and the elapsed-time
argument used as an exponent is modelled as a natural number of seconds.
Fallible operations return an Except value mirroring the thrown errors.
The JavaScript truthiness test on an optional numeric field is false for an
absent field and for a present field equal to zero; isFalsy captures that.
-/

namespace Granite

/-- Interest rate curve parameters, from src/types.ts. -/
structure InterestRateParams where
  urKink : ℚ
  baseIR : ℚ
  slope1 : ℚ
  slope2 : ℚ
deriving DecidableEq

/-- A collateral position, from src/types.ts: amount and price are required,
the risk ratios are optional fields. -/
structure Collateral where
  amount : ℚ
  price : ℚ
  maxLTV : Option ℚ := none
  liquidationLTV : Option ℚ := none
  liquidationPremium : Option ℚ := none
deriving DecidableEq

/-- A reward epoch, from src/types.ts. -/
structure Epoch where
  startTimestamp : ℚ
  endTimestamp : ℚ
  totalRewards : ℚ
deriving DecidableEq

/-- An LP share snapshot, from src/types.ts. -/
structure Snapshot where
  timestamp : ℚ
  totalLpShares : ℚ
  userLpShares : ℚ
deriving DecidableEq

/-- JavaScript falsiness of an optional numeric field: absent or zero. -/
def isFalsy : Option ℚ → Bool
  | none => true
  | some x => x == 0

/-- Whether an Except result is the error case (a thrown JS error). -/
def isErr {ε α : Type} : Except ε α → Bool
  | .error _ => true
  | .ok _ => false

/-- secondsInAYear constant from src/constants.ts. -/
def secondsInAYear : ℕ := 365 * 24 * 60 * 60

/-- computeUtilizationRate from src/modules (borrow) and src/functions.ts. -/
def computeUtilizationRate (openInterest totalAssets : ℚ) : ℚ :=
  if totalAssets = 0 then 0 else openInterest / totalAssets

/-- annualizedAPR, the kinked two-segment rate curve, src/functions.ts lines 126-136. -/
def annualizedAPR (ur : ℚ) (irParams : InterestRateParams) : ℚ :=
  if ur < irParams.urKink then irParams.slope1 * ur + irParams.baseIR
  else
    irParams.slope2 * (ur - irParams.urKink) + irParams.slope1 * irParams.urKink +
      irParams.baseIR

/-- calculateDueInterest, src/functions.ts lines 14-25. -/
def calculateDueInterest (debtAmt openInterest totalAssets : ℚ)
    (irParams : InterestRateParams) (timeDelta : ℕ) : ℚ :=
  debtAmt *
    (1 + annualizedAPR (computeUtilizationRate openInterest totalAssets) irParams /
      (secondsInAYear : ℚ)) ^ timeDelta

/-- compoundedInterest, src/functions.ts lines 28-42. -/
def compoundedInterest (debtAmt openInterest totalAssets : ℚ)
    (irParams : InterestRateParams) (timeDelta : ℕ) : ℚ :=
  debtAmt *
    ((1 + annualizedAPR (computeUtilizationRate openInterest totalAssets) irParams /
      (secondsInAYear : ℚ)) ^ timeDelta - 1)

/-- calculateBorrowAPY, src/functions.ts lines 151-154. -/
def calculateBorrowAPY (ur : ℚ) (irParams : InterestRateParams) : ℚ :=
  (1 + annualizedAPR ur irParams / (secondsInAYear : ℚ)) ^ secondsInAYear - 1

/-- convertLpAssetsToShares, src/modules/lp.ts lines 28-50. -/
def convertLpAssetsToShares (assets totalShares totalAssets openInterest
    protocolReservePercentage : ℚ) (irParams : InterestRateParams) (timeDelta : ℕ) : ℚ :=
  if totalAssets = 0 then 0
  else
    let corretedOpenInterest :=
      compoundedInterest openInterest openInterest totalAssets irParams timeDelta
    let accruedInterest := corretedOpenInterest * (1 - protocolReservePercentage)
    assets * totalShares / (accruedInterest + totalAssets)

/-- convertLpSharesToAssets, src/modules/lp.ts lines 63-85. -/
def convertLpSharesToAssets (shares totalShares totalAssets openInterest
    protocolReservePercentage : ℚ) (irParams : InterestRateParams) (timeDelta : ℕ) : ℚ :=
  if totalShares = 0 then 0
  else
    let corretedOpenInterest :=
      compoundedInterest openInterest openInterest totalAssets irParams timeDelta
    let accruedInterest := corretedOpenInterest * (1 - protocolReservePercentage)
    shares * (accruedInterest + totalAssets) / totalShares

/-- convertDebtSharesToAssets, src/functions.ts lines 101-120 and the borrow module. -/
def convertDebtSharesToAssets (debtShares openInterest totalDebtShares totalAssets : ℚ)
    (irParams : InterestRateParams) (timeDelta : ℕ) : ℚ :=
  if totalDebtShares = 0 then 0
  else
    let accruedInterest :=
      compoundedInterest openInterest openInterest totalAssets irParams timeDelta
    debtShares * (openInterest + accruedInterest) / totalDebtShares

/-- calculateMaxRepayAmount from the borrow module (src/unnamed/part_004 lines 564-586):
debt in assets times a ten-minute forward buffer on the borrow APY. -/
def calculateMaxRepayAmount (debtShares openInterest totalDebtShares totalAssets : ℚ)
    (irParams : InterestRateParams) (timeDelta : ℕ) : ℚ :=
  let ur := computeUtilizationRate openInterest totalAssets
  let borrowAPY := calculateBorrowAPY ur irParams
  let debtAssets :=
    convertDebtSharesToAssets debtShares openInterest totalDebtShares totalAssets irParams
      timeDelta
  let repayMultiplier := 1 + borrowAPY / (secondsInAYear : ℚ) * (10 * 60)
  debtAssets * repayMultiplier

namespace FunctionsTs

/-- calculateMaxRepayAmount as written in src/functions.ts lines 320-341, which divides
the borrow APY by 100 before annualizing the ten-minute buffer. -/
def calculateMaxRepayAmount (debtShares openInterest totalDebtShares totalAssets : ℚ)
    (irParams : InterestRateParams) (timeDelta : ℕ) : ℚ :=
  let ur := computeUtilizationRate openInterest totalAssets
  let borrowAPY := calculateBorrowAPY ur irParams
  let debtAssets :=
    convertDebtSharesToAssets debtShares openInterest totalDebtShares totalAssets irParams
      timeDelta
  let repayMultiplier := 1 + borrowAPY / 100 / (secondsInAYear : ℚ) * (10 * 60)
  debtAssets * repayMultiplier

end FunctionsTs

/-- The left fold shared by the risk-weighted collateral sums: it throws the given
message at the first collateral whose selected optional field is falsy, and otherwise
accumulates amount times price times the field value, as the JS reduce loops do. -/
def riskFold (field : Collateral → Option ℚ) (msg : String) (acc : ℚ) :
    List Collateral → Except String ℚ
  | [] => .ok acc
  | c :: rest =>
    if isFalsy (field c) then .error msg
    else riskFold field msg (acc + c.amount * c.price * (field c).getD 0) rest

/-- The risk-weighted collateral value sum as a pure function, for stating results. -/
def weightedSum (field : Collateral → Option ℚ) (l : List Collateral) : ℚ :=
  (l.map fun c => c.amount * c.price * (field c).getD 0).sum

/-- calculateAccountHealth, src/modules/account.ts lines 24-42. -/
def calculateAccountHealth (collaterals : List Collateral) (currentDebt : ℚ) :
    Except String ℚ :=
  match riskFold (fun c => c.liquidationLTV) "LiquidationLTV is not defined" 0 collaterals with
  | .error e => .error e
  | .ok totalCollateralValue =>
    if currentDebt = 0 then .error "Current debt cannot be zero"
    else .ok (totalCollateralValue / currentDebt)

/-- calculateBorrowCapacity, src/functions.ts lines 236-245. -/
def calculateBorrowCapacity (collaterals : List Collateral) : Except String ℚ :=
  riskFold (fun c => c.maxLTV) "Collateral max LTV is not defined" 0 collaterals

/-- liquidatorMaxRepayAmount, src/modules/liquidation.ts lines 117-162. -/
def liquidatorMaxRepayAmount (debtShares openInterest totalDebtShares totalAssets : ℚ)
    (irParams : InterestRateParams) (timeDelta : ℕ) (collateral : Collateral)
    (allCollaterals : List Collateral) : Except String ℚ :=
  if isFalsy collateral.liquidationLTV || isFalsy collateral.liquidationPremium then
    .error "Liquidation LTV or liquidation premium are not defined"
  else
    match riskFold (fun c => c.liquidationLTV)
        "LiquidationLTV is not defined for one or more collaterals" 0 allCollaterals with
    | .error e => .error e
    | .ok totalSecuredValue =>
      let debtAssets :=
        convertDebtSharesToAssets debtShares openInterest totalDebtShares totalAssets
          irParams timeDelta
      let denominator :=
        1 - (1 + collateral.liquidationPremium.getD 0) * collateral.liquidationLTV.getD 0
      let maxRepayCalc := (debtAssets - totalSecuredValue) / denominator
      let collateralValue := collateral.amount * collateral.price
      let collateralCap := collateralValue / (1 + collateral.liquidationPremium.getD 0)
      .ok (max (min maxRepayCalc collateralCap) 0)

/-- The per-interval reward accumulation loop inside earnedRewards,
src/modules/lpRewards.ts lines 24-36. -/
def rewardsLoop (epoch : Epoch) (epochDuration : ℚ) : Snapshot → List Snapshot → ℚ
  | _, [] => 0
  | prevSnapshot, snapshot :: rest =>
    (snapshot.timestamp - prevSnapshot.timestamp) / epochDuration *
        (snapshot.userLpShares / snapshot.totalLpShares) * epoch.totalRewards +
      rewardsLoop epoch epochDuration snapshot rest

/-- earnedRewards, src/modules/lpRewards.ts lines 17-39. -/
def earnedRewards (epoch : Epoch) (snapshots : List Snapshot) : Except String ℚ :=
  if snapshots.length < 2 then .error "Insufficient data to compute rewards"
  else
    if epoch.endTimestamp - epoch.startTimestamp = 0 then .error "Invalid epoch duration"
    else
      match snapshots with
      | [] => .ok 0
      | s :: rest =>
        .ok (rewardsLoop epoch (epoch.endTimestamp - epoch.startTimestamp) s rest)

/-- The contribution of one consecutive snapshot pair, in the words of the spec:
totalRewards times the share of the epoch covered by the interval times the
later snapshot fraction of LP shares. -/
def pairContribution (epoch : Epoch) (epochDuration : ℚ) (pair : Snapshot × Snapshot) : ℚ :=
  epoch.totalRewards * ((pair.2.timestamp - pair.1.timestamp) / epochDuration) *
    (pair.2.userLpShares / pair.2.totalLpShares)

/-- The sum of the pair contributions over all consecutive snapshot pairs. -/
def pairContribSum (epoch : Epoch) (snapshots : List Snapshot) : ℚ :=
  ((snapshots.zip snapshots.tail).map
    (pairContribution epoch (epoch.endTimestamp - epoch.startTimestamp))).sum

/-- computeBucketValue, src/modules/dailyCaps.ts lines 16-20. -/
def computeBucketValue (capFactor currentCapValue totalLiquidity timeDelta resetTime : ℚ) :
    ℚ :=
  let maxBucketValue := totalLiquidity * capFactor
  let refillAmount :=
    if timeDelta > resetTime then maxBucketValue else maxBucketValue * timeDelta / resetTime
  min maxBucketValue (refillAmount + currentCapValue)

/-- absoluteMaxLeverage, the leverage module (src/unnamed/part_003 lines 18-21). -/
def absoluteMaxLeverage (maxLTV : ℚ) : Except String ℚ :=
  if 1 ≤ maxLTV ∨ maxLTV ≤ 0 then .error "Invalid maxLTV"
  else .ok (1 / (1 - maxLTV))

/-- Concrete interest rate parameters used in witnesses, matching the test suite. -/
def testIrParams : InterestRateParams := ⟨7/10, 1/2, 3/4, 3/2⟩

/-- Flat rate parameters: kink at 2, base rate 1, both slopes 0, so the annualized
rate is 1 at every utilization below the kink. -/
def flatIrParams : InterestRateParams := ⟨2, 1, 0, 0⟩

/-- When no collateral in the list has a falsy selected field, the fold returns the
accumulator plus the risk-weighted sum. -/
theorem riskFold_ok (field : Collateral → Option ℚ) (msg : String) (l : List Collateral) :
    ∀ acc : ℚ, (∀ c ∈ l, isFalsy (field c) = false) →
      riskFold field msg acc l = .ok (acc + weightedSum field l) := by
  induction l with
  | nil => intro acc _; simp [riskFold, weightedSum]
  | cons c rest ih =>
    intro acc h
    have hc : isFalsy (field c) = false := h c (by simp)
    rw [riskFold, if_neg (by simp [hc]), ih _ (fun x hx => h x (by simp [hx]))]
    simp only [weightedSum, List.map_cons, List.sum_cons, Except.ok.injEq]
    ring

/-- The fold errors exactly when some collateral in the list has a falsy selected
field. -/
theorem riskFold_err_iff (field : Collateral → Option ℚ) (msg : String)
    (l : List Collateral) : ∀ acc : ℚ,
      (isErr (riskFold field msg acc l) = true ↔
        ∃ c ∈ l, isFalsy (field c) = true) := by
  induction l with
  | nil => intro acc; simp [riskFold, isErr]
  | cons c rest ih =>
    intro acc
    by_cases hc : isFalsy (field c) = true
    · simp [riskFold, hc, isErr]
    · simp only [Bool.not_eq_true] at hc
      rw [riskFold, if_neg (by simp [hc]), ih]
      simp [hc]

/-- C2: the due amount minus the accrued-interest-only component equals the original
principal exactly, for all inputs. -/
theorem dueInterest_sub_compoundedInterest (debtAmt openInterest totalAssets : ℚ)
    (irParams : InterestRateParams) (timeDelta : ℕ) :
    calculateDueInterest debtAmt openInterest totalAssets irParams timeDelta -
      compoundedInterest debtAmt openInterest totalAssets irParams timeDelta = debtAmt := by
  unfold calculateDueInterest compoundedInterest
  ring

/-- C8: computeBucketValue equals min of the bucket capacity and the current value
plus the linear refill, the worked example evaluates to 35, and the result never
exceeds the bucket capacity. -/
theorem computeBucketValue_spec :
    (∀ capFactor currentCapValue totalLiquidity timeDelta resetTime : ℚ,
      computeBucketValue capFactor currentCapValue totalLiquidity timeDelta resetTime =
        min (totalLiquidity * capFactor)
          (currentCapValue +
            (if timeDelta > resetTime then totalLiquidity * capFactor
             else totalLiquidity * capFactor * timeDelta / resetTime))) ∧
    computeBucketValue (5/100) 10 1000 43200 86400 = 35 ∧
    (∀ capFactor currentCapValue totalLiquidity timeDelta resetTime : ℚ,
      computeBucketValue capFactor currentCapValue totalLiquidity timeDelta resetTime ≤
        totalLiquidity * capFactor) := by
  refine ⟨fun cf cv tl e rw => ?_, ?_, fun cf cv tl e rw => ?_⟩
  · simp only [computeBucketValue]
    rw [add_comm]
  · norm_num [computeBucketValue]
  · exact min_le_left _ _

/-- C9: absoluteMaxLeverage errors exactly when maxLTV is outside the open interval
from 0 to 1, and otherwise returns 1 / (1 - maxLTV). -/
theorem absoluteMaxLeverage_spec (x : ℚ) :
    (isErr (absoluteMaxLeverage x) = true ↔ x ≤ 0 ∨ 1 ≤ x) ∧
    (0 < x → x < 1 → absoluteMaxLeverage x = .ok (1 / (1 - x))) := by
  constructor
  · unfold absoluteMaxLeverage
    split
    · simpa [isErr] using (by tauto : _)
    · simp only [isErr]
      constructor
      · intro h; cases h
      · intro h
        rename_i hcond
        exact absurd (h.symm.imp id id) hcond
  · intro h0 h1
    unfold absoluteMaxLeverage
    rw [if_neg]
    push_neg
    exact ⟨by linarith, by linarith⟩

/-- Witness for C9 at maxLTV one half. -/
theorem absoluteMaxLeverage_spec_check :
    (0 : ℚ) < 1/2 ∧ (1/2 : ℚ) < 1 ∧
      absoluteMaxLeverage (1/2) = .ok (1 / (1 - (1/2 : ℚ))) :=
  ⟨by norm_num, by norm_num,
    (absoluteMaxLeverage_spec (1/2)).2 (by norm_num) (by norm_num)⟩

/-- C7: the kinked rate curve is non-decreasing in the utilization rate whenever both
slopes are non-negative. -/
theorem annualizedAPR_monotone (irParams : InterestRateParams) (ur1 ur2 : ℚ)
    (h : ur1 ≤ ur2) (h1 : 0 ≤ irParams.slope1) (h2 : 0 ≤ irParams.slope2) :
    annualizedAPR ur1 irParams ≤ annualizedAPR ur2 irParams := by
  unfold annualizedAPR
  split_ifs with hk1 hk2 hk2
  · nlinarith [mul_le_mul_of_nonneg_left h h1]
  · have ha : irParams.slope1 * ur1 ≤ irParams.slope1 * irParams.urKink :=
      mul_le_mul_of_nonneg_left (le_of_lt hk1) h1
    have hb : 0 ≤ irParams.slope2 * (ur2 - irParams.urKink) :=
      mul_nonneg h2 (by push_neg at hk2; linarith)
    linarith
  · push_neg at hk1; linarith
  · nlinarith [mul_le_mul_of_nonneg_left h h2]

/-- Witness for C7 at utilizations one half and one with the test parameters. -/
theorem annualizedAPR_monotone_check :
    (1/2 : ℚ) ≤ 1 ∧ (0 : ℚ) ≤ testIrParams.slope1 ∧ (0 : ℚ) ≤ testIrParams.slope2 ∧
      annualizedAPR (1/2) testIrParams ≤ annualizedAPR 1 testIrParams :=
  ⟨by norm_num, by norm_num [testIrParams], by norm_num [testIrParams],
    annualizedAPR_monotone testIrParams (1/2) 1 (by norm_num)
      (by norm_num [testIrParams]) (by norm_num [testIrParams])⟩

/-- C3: converting assets to LP shares and back with the same pool snapshot and a
zero time delta returns the original assets exactly, whenever the pool has positive
total assets and positive total shares. -/
theorem lp_shares_roundtrip (assets totalShares totalAssets openInterest
    protocolReservePercentage : ℚ) (irParams : InterestRateParams)
    (hA : 0 < totalAssets) (hS : 0 < totalShares) :
    convertLpSharesToAssets
      (convertLpAssetsToShares assets totalShares totalAssets openInterest
        protocolReservePercentage irParams 0)
      totalShares totalAssets openInterest protocolReservePercentage irParams 0 =
      assets := by
  unfold convertLpSharesToAssets convertLpAssetsToShares compoundedInterest
  rw [if_neg (ne_of_gt hA), if_neg (ne_of_gt hS)]
  simp only [pow_zero, sub_self, mul_zero, zero_mul, zero_add]
  field_simp

/-- Witness for C3 on a small concrete pool. -/
theorem lp_shares_roundtrip_check :
    (0 : ℚ) < 5 ∧ (0 : ℚ) < 3 ∧
      convertLpSharesToAssets
        (convertLpAssetsToShares 7 3 5 2 (1/10) testIrParams 0)
        3 5 2 (1/10) testIrParams 0 = 7 :=
  ⟨by norm_num, by norm_num,
    lp_shares_roundtrip 7 3 5 2 (1/10) testIrParams (by norm_num) (by norm_num)⟩

/-- C4: calculateAccountHealth errors exactly when the debt is zero or some
collateral lacks a usable liquidationLTV (absent or zero, the falsy test the code
performs), otherwise it returns the risk-weighted collateral value divided by the
debt; the worked example evaluates to 1.6. -/
theorem calculateAccountHealth_spec (collaterals : List Collateral) (currentDebt : ℚ) :
    (isErr (calculateAccountHealth collaterals currentDebt) = true ↔
      currentDebt = 0 ∨ ∃ c ∈ collaterals, isFalsy c.liquidationLTV = true) ∧
    ((∀ c ∈ collaterals, isFalsy c.liquidationLTV = false) → currentDebt ≠ 0 →
      calculateAccountHealth collaterals currentDebt =
        .ok (weightedSum (fun c => c.liquidationLTV) collaterals / currentDebt)) ∧
    calculateAccountHealth [⟨100, 10, none, some (8/10), none⟩] 500 = .ok (8/5) := by
  refine ⟨?_, ?_, ?_⟩
  · have herr := riskFold_err_iff (fun c => c.liquidationLTV)
      "LiquidationLTV is not defined" collaterals 0
    unfold calculateAccountHealth
    rcases hfold : riskFold (fun c => c.liquidationLTV)
        "LiquidationLTV is not defined" 0 collaterals with e | v
    · rw [hfold] at herr
      simp only [isErr] at herr ⊢
      tauto
    · rw [hfold] at herr
      simp only [isErr] at herr
      split_ifs with hd
      · simp only [isErr]
        tauto
      · simp only [isErr]
        constructor
        · intro h; cases h
        · intro h
          rcases h with h | h
          · exact absurd h hd
          · exact absurd (herr.mpr h) (by simp)
  · intro hall hd
    have hfold := riskFold_ok (fun c => c.liquidationLTV)
      "LiquidationLTV is not defined" collaterals 0 hall
    unfold calculateAccountHealth
    rw [hfold]
    simp [hd]
  · norm_num [calculateAccountHealth, riskFold, isFalsy]

/-- Witness for C4 on the worked example from the spec. -/
theorem calculateAccountHealth_spec_check :
    (∀ c ∈ [(⟨100, 10, none, some (8/10), none⟩ : Collateral)],
        isFalsy c.liquidationLTV = false) ∧ (500 : ℚ) ≠ 0 ∧
      calculateAccountHealth [⟨100, 10, none, some (8/10), none⟩] 500 =
        .ok (weightedSum (fun c => c.liquidationLTV)
          [⟨100, 10, none, some (8/10), none⟩] / 500) :=
  ⟨by intro c hc; simp at hc; subst hc; norm_num [isFalsy], by norm_num,
    (calculateAccountHealth_spec [⟨100, 10, none, some (8/10), none⟩] 500).2.1
      (by intro c hc; simp at hc; subst hc; norm_num [isFalsy]) (by norm_num)⟩

/-- An Except value is an error precisely when it equals some error payload. -/
theorem isErr_eq_true {ε α : Type} (x : Except ε α) :
    isErr x = true ↔ ∃ e, x = .error e := by
  cases x <;> simp [isErr]

/-- C10: a present-but-zero risk ratio is treated like an absent one: a zero
liquidationLTV in the list makes calculateAccountHealth and liquidatorMaxRepayAmount
error, a zero maxLTV makes calculateBorrowCapacity error, and a zero
liquidationPremium on the target collateral makes liquidatorMaxRepayAmount error. -/
theorem zeroRiskParamTreatedAsMissing (pre post alls : List Collateral)
    (c tgt : Collateral)
    (currentDebt debtShares openInterest totalDebtShares totalAssets : ℚ)
    (irParams : InterestRateParams) (timeDelta : ℕ) :
    (c.liquidationLTV = some 0 →
      isErr (calculateAccountHealth (pre ++ c :: post) currentDebt) = true) ∧
    (c.liquidationLTV = some 0 →
      isErr (liquidatorMaxRepayAmount debtShares openInterest totalDebtShares totalAssets
        irParams timeDelta tgt (pre ++ c :: post)) = true) ∧
    (c.maxLTV = some 0 →
      isErr (calculateBorrowCapacity (pre ++ c :: post)) = true) ∧
    (tgt.liquidationPremium = some 0 →
      isErr (liquidatorMaxRepayAmount debtShares openInterest totalDebtShares totalAssets
        irParams timeDelta tgt alls) = true) := by
  refine ⟨fun h => ?_, fun h => ?_, fun h => ?_, fun h => ?_⟩
  · have herr := (riskFold_err_iff (fun c => c.liquidationLTV)
      "LiquidationLTV is not defined" (pre ++ c :: post) 0).mpr
      ⟨c, by simp, by simp [isFalsy, h]⟩
    rcases (isErr_eq_true _).mp herr with ⟨e, he⟩
    unfold calculateAccountHealth
    rw [he]
    simp [isErr]
  · unfold liquidatorMaxRepayAmount
    split_ifs with hguard
    · simp [isErr]
    · have herr := (riskFold_err_iff (fun c => c.liquidationLTV)
        "LiquidationLTV is not defined for one or more collaterals"
        (pre ++ c :: post) 0).mpr ⟨c, by simp, by simp [isFalsy, h]⟩
      rcases (isErr_eq_true _).mp herr with ⟨e, he⟩
      rw [he]
      simp [isErr]
  · unfold calculateBorrowCapacity
    exact (riskFold_err_iff (fun c => c.maxLTV)
      "Collateral max LTV is not defined" (pre ++ c :: post) 0).mpr
      ⟨c, by simp, by simp [isFalsy, h]⟩
  · unfold liquidatorMaxRepayAmount
    rw [if_pos (by simp [isFalsy, h])]
    simp [isErr]

/-- Witness for C10 with concrete zero-valued risk ratios. -/
theorem zeroRiskParamTreatedAsMissing_check :
    isErr (calculateAccountHealth [⟨1, 1, some 0, some 0, none⟩] 5) = true ∧
    isErr (liquidatorMaxRepayAmount 0 1 1 1 testIrParams 0
      ⟨1, 1, none, some (1/2), some 0⟩ [⟨1, 1, some 0, some 0, none⟩]) = true ∧
    isErr (calculateBorrowCapacity [⟨1, 1, some 0, some 0, none⟩]) = true ∧
    isErr (liquidatorMaxRepayAmount 0 1 1 1 testIrParams 0
      ⟨1, 1, none, some (1/2), some 0⟩ []) = true :=
  ⟨(zeroRiskParamTreatedAsMissing [] [] [] ⟨1, 1, some 0, some 0, none⟩
      ⟨1, 1, none, some (1/2), some 0⟩ 5 0 1 1 1 testIrParams 0).1 rfl,
   (zeroRiskParamTreatedAsMissing [] [] [] ⟨1, 1, some 0, some 0, none⟩
      ⟨1, 1, none, some (1/2), some 0⟩ 5 0 1 1 1 testIrParams 0).2.1 rfl,
   (zeroRiskParamTreatedAsMissing [] [] [] ⟨1, 1, some 0, some 0, none⟩
      ⟨1, 1, none, some (1/2), some 0⟩ 5 0 1 1 1 testIrParams 0).2.2.1 rfl,
   (zeroRiskParamTreatedAsMissing [] [] [] ⟨1, 1, some 0, some 0, none⟩
      ⟨1, 1, none, some (1/2), some 0⟩ 5 0 1 1 1 testIrParams 0).2.2.2 rfl⟩

/-- C1 amended: when the target collateral carries a usable liquidationLTV and
liquidationPremium and every collateral in the list carries a usable liquidationLTV,
liquidatorMaxRepayAmount returns max of min of the repay formula and the collateral
cap with zero; and whenever the debt in assets is at most the total secured value
AND the denominator 1 - (1 + premium) * liquidationLTV is positive, the result is
exactly zero. -/
theorem liquidatorMaxRepay_formula_and_gating
    (debtShares openInterest totalDebtShares totalAssets : ℚ)
    (irParams : InterestRateParams) (timeDelta : ℕ) (c : Collateral)
    (alls : List Collateral) (l pr : ℚ)
    (hl : c.liquidationLTV = some l) (hl0 : l ≠ 0)
    (hp : c.liquidationPremium = some pr) (hp0 : pr ≠ 0)
    (halls : ∀ coll ∈ alls, isFalsy coll.liquidationLTV = false) :
    liquidatorMaxRepayAmount debtShares openInterest totalDebtShares totalAssets irParams
        timeDelta c alls =
      .ok (max (min
        ((convertDebtSharesToAssets debtShares openInterest totalDebtShares totalAssets
            irParams timeDelta - weightedSum (fun x => x.liquidationLTV) alls) /
          (1 - (1 + pr) * l))
        (c.amount * c.price / (1 + pr))) 0) ∧
    (convertDebtSharesToAssets debtShares openInterest totalDebtShares totalAssets irParams
        timeDelta ≤ weightedSum (fun x => x.liquidationLTV) alls →
      (1 + pr) * l < 1 →
      liquidatorMaxRepayAmount debtShares openInterest totalDebtShares totalAssets irParams
        timeDelta c alls = .ok 0) := by
  have hfold := riskFold_ok (fun x => x.liquidationLTV)
    "LiquidationLTV is not defined for one or more collaterals" alls 0 halls
  have hmain : liquidatorMaxRepayAmount debtShares openInterest totalDebtShares totalAssets
      irParams timeDelta c alls =
      .ok (max (min
        ((convertDebtSharesToAssets debtShares openInterest totalDebtShares totalAssets
            irParams timeDelta - weightedSum (fun x => x.liquidationLTV) alls) /
          (1 - (1 + pr) * l))
        (c.amount * c.price / (1 + pr))) 0) := by
    unfold liquidatorMaxRepayAmount
    rw [if_neg (by simp [isFalsy, hl, hp, hl0, hp0]), hfold]
    simp [hl, hp]
  refine ⟨hmain, fun hle hden => ?_⟩
  rw [hmain]
  have hm : (convertDebtSharesToAssets debtShares openInterest totalDebtShares totalAssets
      irParams timeDelta - weightedSum (fun x => x.liquidationLTV) alls) /
      (1 - (1 + pr) * l) ≤ 0 :=
    div_nonpos_iff.2 (Or.inr ⟨by linarith, by linarith⟩)
  rw [max_eq_right (min_le_of_left_le hm)]

/-- Witness for the amended C1 on a debt-free position with a positive denominator. -/
theorem liquidatorMaxRepay_formula_and_gating_check :
    convertDebtSharesToAssets 0 1 1 1 flatIrParams 0 ≤
      weightedSum (fun x => x.liquidationLTV) [⟨1, 1, none, some (1/2), some (1/10)⟩] ∧
    (1 + (1/10 : ℚ)) * (1/2) < 1 ∧
    liquidatorMaxRepayAmount 0 1 1 1 flatIrParams 0
      ⟨1, 1, none, some (1/2), some (1/10)⟩ [⟨1, 1, none, some (1/2), some (1/10)⟩] =
      .ok 0 :=
  ⟨by norm_num [convertDebtSharesToAssets, weightedSum, compoundedInterest],
   by norm_num,
   (liquidatorMaxRepay_formula_and_gating 0 1 1 1 flatIrParams 0
      ⟨1, 1, none, some (1/2), some (1/10)⟩ [⟨1, 1, none, some (1/2), some (1/10)⟩]
      (1/2) (1/10) rfl (by norm_num) rfl (by norm_num)
      (by intro x hx; simp at hx; subst hx; norm_num [isFalsy])).2
    (by norm_num [convertDebtSharesToAssets, weightedSum, compoundedInterest])
    (by norm_num)⟩

/-- C1 counterexample: with liquidationLTV nine tenths and liquidationPremium one
fifth, the denominator 1 - (1 + premium) * liquidationLTV is negative, and a position
whose debt in assets (zero here) is at most the total secured value still receives a
strictly positive liquidator repay amount of five sixths instead of zero. -/
theorem liquidatorMaxRepay_gating_fails :
    convertDebtSharesToAssets 0 1 1 1 flatIrParams 0 ≤
      weightedSum (fun x => x.liquidationLTV) [⟨1, 1, none, some (9/10), some (1/5)⟩] ∧
    liquidatorMaxRepayAmount 0 1 1 1 flatIrParams 0
      ⟨1, 1, none, some (9/10), some (1/5)⟩ [⟨1, 1, none, some (9/10), some (1/5)⟩] =
      .ok (5/6) ∧ (5/6 : ℚ) ≠ 0 := by
  refine ⟨?_, ?_, by norm_num⟩
  · norm_num [convertDebtSharesToAssets, weightedSum, compoundedInterest]
  · norm_num [liquidatorMaxRepayAmount, riskFold, isFalsy, convertDebtSharesToAssets,
      compoundedInterest, computeUtilizationRate, annualizedAPR, flatIrParams,
      min_def, max_def]

/-- The accumulation loop of earnedRewards computes the sum of the per-pair
contributions over consecutive snapshots. -/
theorem rewardsLoop_eq_pairSum (epoch : Epoch) (d : ℚ) (rest : List Snapshot) :
    ∀ prev, rewardsLoop epoch d prev rest =
      (((prev :: rest).zip rest).map (pairContribution epoch d)).sum := by
  induction rest with
  | nil => intro prev; simp [rewardsLoop]
  | cons s rs ih =>
    intro prev
    simp only [rewardsLoop, List.zip_cons_cons, List.map_cons, List.sum_cons, ih s]
    simp only [pairContribution]
    ring

/-- C6: earnedRewards errors exactly when there are fewer than two snapshots or the
epoch duration is zero, otherwise it returns the sum over consecutive snapshot pairs
of totalRewards times the interval share of the epoch times the later snapshot LP
share fraction; the worked example evaluates to 50. -/
theorem earnedRewards_spec (epoch : Epoch) (snapshots : List Snapshot) :
    (isErr (earnedRewards epoch snapshots) = true ↔
      snapshots.length < 2 ∨ epoch.endTimestamp - epoch.startTimestamp = 0) ∧
    (2 ≤ snapshots.length → epoch.endTimestamp - epoch.startTimestamp ≠ 0 →
      earnedRewards epoch snapshots = .ok (pairContribSum epoch snapshots)) ∧
    earnedRewards ⟨0, 1000, 100⟩ [⟨0, 1000, 100⟩, ⟨1000, 1000, 500⟩] = .ok 50 := by
  refine ⟨?_, ?_, ?_⟩
  · cases snapshots with
    | nil => simp [earnedRewards, isErr]
    | cons s rest =>
      unfold earnedRewards
      split_ifs with h1 h2
      · simp only [isErr, true_iff]
        exact Or.inl h1
      · simp only [isErr, true_iff]
        exact Or.inr h2
      · simp only [isErr, Bool.false_eq_true, false_iff]
        push_neg
        exact ⟨Nat.not_lt.mp h1, h2⟩
  · intro hlen hdur
    cases snapshots with
    | nil => simp at hlen
    | cons s rest =>
      unfold earnedRewards
      rw [if_neg (Nat.not_lt.mpr hlen), if_neg hdur]
      simp only [Except.ok.injEq]
      rw [rewardsLoop_eq_pairSum]
      rfl
  · norm_num [earnedRewards, rewardsLoop]

/-- Witness for C6 on the worked two-snapshot example. -/
theorem earnedRewards_spec_check :
    2 ≤ ([⟨0, 1000, 100⟩, ⟨1000, 1000, 500⟩] : List Snapshot).length ∧
    (⟨0, 1000, 100⟩ : Epoch).endTimestamp - (⟨0, 1000, 100⟩ : Epoch).startTimestamp ≠ 0 ∧
    earnedRewards ⟨0, 1000, 100⟩ [⟨0, 1000, 100⟩, ⟨1000, 1000, 500⟩] =
      .ok (pairContribSum ⟨0, 1000, 100⟩ [⟨0, 1000, 100⟩, ⟨1000, 1000, 500⟩]) :=
  ⟨by norm_num, by norm_num,
    (earnedRewards_spec ⟨0, 1000, 100⟩ [⟨0, 1000, 100⟩, ⟨1000, 1000, 500⟩]).2.1
      (by norm_num) (by norm_num)⟩

/-- C5: the borrow-module calculateMaxRepayAmount equals the current debt in assets
times 1 plus the ten-minute interest buffer on the borrow APY, for all inputs; the
copy in src/functions.ts instead divides the borrow APY by 100 and therefore differs
from that value at an explicit input where debt and rate are nonzero. -/
theorem calculateMaxRepayAmount_spec_and_divergence :
    (∀ (debtShares openInterest totalDebtShares totalAssets : ℚ)
        (irParams : InterestRateParams) (timeDelta : ℕ),
      calculateMaxRepayAmount debtShares openInterest totalDebtShares totalAssets irParams
          timeDelta =
        convertDebtSharesToAssets debtShares openInterest totalDebtShares totalAssets
            irParams timeDelta *
          (1 + calculateBorrowAPY (computeUtilizationRate openInterest totalAssets)
              irParams / (secondsInAYear : ℚ) * 600)) ∧
    FunctionsTs.calculateMaxRepayAmount 1 1 1 1 flatIrParams 0 ≠
      convertDebtSharesToAssets 1 1 1 1 flatIrParams 0 *
        (1 + calculateBorrowAPY (computeUtilizationRate 1 1) flatIrParams /
          (secondsInAYear : ℚ) * 600) := by
  constructor
  · intro ds oi tds tA p t
    unfold calculateMaxRepayAmount
    norm_num
  · have hur : computeUtilizationRate 1 1 = 1 := by
      norm_num [computeUtilizationRate]
    have hapr : annualizedAPR 1 flatIrParams = 1 := by
      norm_num [annualizedAPR, flatIrParams]
    have hB : 0 < calculateBorrowAPY (computeUtilizationRate 1 1) flatIrParams := by
      rw [hur, calculateBorrowAPY, hapr]
      have h1 : (1 : ℚ) < 1 + 1 / (secondsInAYear : ℚ) := by
        norm_num [secondsInAYear]
      have h2 := one_lt_pow₀ h1 (n := secondsInAYear) (by norm_num [secondsInAYear])
      linarith
    have hD : convertDebtSharesToAssets 1 1 1 1 flatIrParams 0 = 1 := by
      norm_num [convertDebtSharesToAssets, compoundedInterest]
    rw [FunctionsTs.calculateMaxRepayAmount, hD]
    intro heq
    have hsY : (0 : ℚ) < (secondsInAYear : ℚ) := by norm_num [secondsInAYear]
    set B := calculateBorrowAPY (computeUtilizationRate 1 1) flatIrParams with hBdef
    field_simp at heq
    nlinarith [hB, hsY]

end Granite
